import Mathlib

/-!
Verification of the offer filter/paginate pipeline of the
`chatgpt-marketplace-app` MCP server.

The definitions below are a shallow embedding of the TypeScript source:

* `src/api/synchronyClient.ts` — the rich client `fetchOffers` with its
  eight-stage filter/paginate pipeline and the six-offer fallback dataset
  `MOCK_OFFERS`, plus the legacy mock client `fetchOffersFromSynchrony`;
* `src/tools/getOffers.ts` — the legacy tool handler `handleGetOffers`;
* `src/schemas/offerSchema.ts` — the data shapes (`Offer`, `Brand`,
  `GetOffersInput`, …).

JavaScript strings are modelled as Lean `String` (the data is ASCII, where
`toUpperCase`/`toLowerCase`/`trim` coincide with the per-character ASCII
functions used below); JavaScript numbers are modelled as `Rat` (all numeric
literals in the source are exactly representable); `undefined` fields are
`Option.none`.
-/

/-- Model of JavaScript `a.includes(b)` (substring containment): `b`'s
character list is an infix of `a`'s. -/
def strIncludes (a b : String) : Bool := decide (b.data <:+: a.data)

/-- Model of JavaScript `s.toLowerCase()` (character-wise; the repository's
data is ASCII, where this is exact). -/
def jsToLower (s : String) : String := ⟨s.data.map Char.toLower⟩

/-- Model of JavaScript `s.toUpperCase()` (character-wise; the repository's
data is ASCII, where this is exact). -/
def jsToUpper (s : String) : String := ⟨s.data.map Char.toUpper⟩

/-- Model of JavaScript `s.trim()`: strip leading and trailing whitespace. -/
def jsTrim (s : String) : String :=
  ⟨((s.data.dropWhile Char.isWhitespace).reverse.dropWhile Char.isWhitespace).reverse⟩

/-! Section: Data model (`src/schemas/offerSchema.ts`, rich shape) -/

/-- One entry of `brand.industry` (`IndustrySchema`): `{ name, icon? }`. -/
structure Industry where
  name : String
  icon : Option String
deriving DecidableEq

/-- `brand.network` (`NetworkSchema`): `{ name, description?, icon?, pageUrl? }`. -/
structure Network where
  name : String
  description : Option String
  icon : Option String
  pageUrl : Option String
deriving DecidableEq

/-- `offer.brand` (`BrandSchema`). -/
structure Brand where
  name : String
  featured : Option Bool
  logo : Option String
  image : Option String
  priority : Option Rat
  productType : Option String
  industry : Option (List Industry)
  network : Option Network
  region : Option (List String)
deriving DecidableEq

/-- `offer.offerImage` (`OfferImageSchema`): an optional `default` image plus a
catch-all map of size-label to image URL. -/
structure OfferImage where
  default : Option String
  sizes : List (String × String)
deriving DecidableEq

/-- One entry of `offer.links` (`OfferLinkSchema`). -/
structure OfferLink where
  linkLabel : String
  linkUrl : String
  linkPlacement : Int
deriving DecidableEq

/-- `offer.offerType` (`OfferTypeSchema`): `{ name, icon? }`. -/
structure OfferType where
  name : String
  icon : Option String
deriving DecidableEq

/-- A marketplace offer (`OfferSchema`, rich shape; the trailing three fields
are the legacy/compat fields, optional in the rich schema). -/
structure Offer where
  slotId : Option String
  groupId : Option String
  offerId : Option String
  title : String
  subtitle : Option String
  disclosure : Option String
  keywords : Option (List String)
  offerImage : Option OfferImage
  startDate : Option String
  endDate : Option String
  offerType : Option OfferType
  brand : Option Brand
  productType : Option String
  links : Option (List OfferLink)
  expiryMsg : Option String
  price : Option Rat
  discount : Option String
  link : Option String
deriving DecidableEq

/-- The validated `get_offers` tool input (`GetOffersInputZodShape`, rich
shape). `limitOffersCount` is a positive integer and `offset` a non-negative
integer per the schema, so both are modelled as `Nat`. -/
structure GetOffersInput where
  category : Option String
  maxPrice : Option Rat
  industry : Option (List String)
  offerType : Option (List String)
  region : Option String
  network : Option (List String)
  brand : Option String
  featured : Option Bool
  limitOffersCount : Option Nat
  offset : Option Nat
deriving DecidableEq

/-- The query with every field unset. -/
def emptyQuery : GetOffersInput :=
  ⟨none, none, none, none, none, none, none, none, none, none⟩

/-! Section: Filter pipeline (`src/api/synchronyClient.ts`, `fetchOffers`)

Each stage mirrors one `if (...) { filtered = filtered.filter(...) }` block of
the source, in source order.  A JavaScript optional chain that ends in
`undefined` is falsy, so a missing `brand` (or a missing nested field) makes
every predicate below return `false` for that offer. -/

/-- Stage 1 predicate: `offer.brand?.industry?.some(ind =>
industries.some(f => ind.name.toUpperCase().includes(f)))` where `industries`
is the query's industry list already upper-cased. -/
def industryKeep (industries : List String) (o : Offer) : Bool :=
  ((o.brand.bind Brand.industry).getD []).any fun ind =>
    industries.any fun f => strIncludes (jsToUpper ind.name) f

/-- Stage 1: industry filter, active when `input.industry` is a non-empty
list (`input.industry && input.industry.length > 0`). -/
def stageIndustry (input : GetOffersInput) (l : List Offer) : List Offer :=
  match input.industry with
  | some is => if 0 < is.length then l.filter (industryKeep (is.map jsToUpper)) else l
  | none => l

/-- Stage 2 predicate: the lowercased, trimmed category string is a substring
of some industry name, or of the brand name, or of the offer title (all
lowercased). -/
def categoryKeep (cat : String) (o : Offer) : Bool :=
  (((o.brand.bind Brand.industry).getD []).any fun ind =>
      strIncludes (jsToLower ind.name) cat)
  || (match o.brand with
      | some b => strIncludes (jsToLower b.name) cat
      | none => false)
  || strIncludes (jsToLower o.title) cat

/-- Stage 2: legacy free-text category filter, active when `input.category`
is truthy (set and non-empty). -/
def stageCategory (input : GetOffersInput) (l : List Offer) : List Offer :=
  match input.category with
  | some c => if c ≠ "" then l.filter (categoryKeep (jsTrim (jsToLower c))) else l
  | none => l

/-- Stage 3 predicate: `offer.offerType ? types.some(t =>
offer.offerType.name.toUpperCase().includes(t)) : false`. -/
def offerTypeKeep (types : List String) (o : Offer) : Bool :=
  match o.offerType with
  | some t => types.any fun f => strIncludes (jsToUpper t.name) f
  | none => false

/-- Stage 3: offer-type filter, active when `input.offerType` is a non-empty
list. -/
def stageOfferType (input : GetOffersInput) (l : List Offer) : List Offer :=
  match input.offerType with
  | some ts => if 0 < ts.length then l.filter (offerTypeKeep (ts.map jsToUpper)) else l
  | none => l

/-- Stage 4 predicate: `offer.brand?.region?.some(r =>
r.toUpperCase().includes(regionFilter))`. -/
def regionKeep (regionFilter : String) (o : Offer) : Bool :=
  ((o.brand.bind Brand.region).getD []).any fun r =>
    strIncludes (jsToUpper r) regionFilter

/-- Stage 4: region filter, active when `input.region` is truthy. -/
def stageRegion (input : GetOffersInput) (l : List Offer) : List Offer :=
  match input.region with
  | some r => if r ≠ "" then l.filter (regionKeep (jsToUpper r)) else l
  | none => l

/-- Stage 5 predicate: `offer.brand?.network ? networks.some(n =>
offer.brand.network.name.toUpperCase().includes(n)) : false`. -/
def networkKeep (networks : List String) (o : Offer) : Bool :=
  match o.brand.bind Brand.network with
  | some n => networks.any fun f => strIncludes (jsToUpper n.name) f
  | none => false

/-- Stage 5: network filter, active when `input.network` is a non-empty
list. -/
def stageNetwork (input : GetOffersInput) (l : List Offer) : List Offer :=
  match input.network with
  | some ns => if 0 < ns.length then l.filter (networkKeep (ns.map jsToUpper)) else l
  | none => l

/-- Stage 6 predicate: `offer.brand?.name?.toLowerCase().includes(brandFilter)`
(the query's brand string is lowercased, not trimmed). -/
def brandKeep (brandFilter : String) (o : Offer) : Bool :=
  match o.brand with
  | some b => strIncludes (jsToLower b.name) brandFilter
  | none => false

/-- Stage 6: brand substring filter, active when `input.brand` is truthy. -/
def stageBrand (input : GetOffersInput) (l : List Offer) : List Offer :=
  match input.brand with
  | some b => if b ≠ "" then l.filter (brandKeep (jsToLower b)) else l
  | none => l

/-- Stage 7 predicate: `offer.brand?.featured === featuredFilter`; an absent
`brand` or absent `featured` is `undefined`, which is never strictly equal to
a boolean. -/
def featuredKeep (featuredFilter : Bool) (o : Offer) : Bool :=
  decide (o.brand.bind Brand.featured = some featuredFilter)

/-- Stage 7: featured filter, active when `input.featured !== undefined`. -/
def stageFeatured (input : GetOffersInput) (l : List Offer) : List Offer :=
  match input.featured with
  | some f => l.filter (featuredKeep f)
  | none => l

/-- Stages 1–7 composed in source order: the filtered list just before
pagination. -/
def applyFilters (input : GetOffersInput) (l : List Offer) : List Offer :=
  stageFeatured input (stageBrand input (stageNetwork input (stageRegion input
    (stageOfferType input (stageCategory input (stageIndustry input l))))))

/-- Stage 8: pagination. `start = input.offset ?? 0`,
`limit = input.limitOffersCount ?? filtered.length`,
result `filtered.slice(start, start + limit)`. -/
def paginate (input : GetOffersInput) (l : List Offer) : List Offer :=
  (l.drop (input.offset.getD 0)).take (input.limitOffersCount.getD l.length)

/-- The whole in-process pipeline of `fetchOffers`: stages 1–7, then
pagination. -/
def fetchOffersPipeline (input : GetOffersInput) (l : List Offer) : List Offer :=
  paginate input (applyFilters input l)

/-! Section: Fallback mock dataset (`MOCK_OFFERS`, `src/api/synchronyClient.ts`) -/

/-- Offer `slot-001`: Ashley. -/
def offerAshley : Offer where
  slotId := some "slot-001"
  groupId := some "987654321"
  offerId := some "offer-furniture-001"
  title := "Get up to a $100 Visa Prepaid Card"
  subtitle := some "When you use your Ashley Advantage credit card on qualifying purchases."
  disclosure := some "Offer valid for new Ashley Advantage cardholders only. See store for details."
  keywords := some ["Furniture", "Visa Prepaid"]
  offerImage := some
    { default := some "https://placeholder.syf.com/img/ashley_318_510.png"
      sizes := [("318x510", "https://placeholder.syf.com/img/ashley_318_510.png"),
                ("221x139", "https://placeholder.syf.com/img/ashley_221_139.png")] }
  startDate := some "2024-01-01"
  endDate := some "2024-12-31"
  offerType := some { name := "DEALS", icon := some "https://www.syf.com/img/icon_deals.png" }
  brand := some
    { name := "Ashley"
      featured := some true
      logo := some "https://www.syf.com/img/single_ashley_logo.jpg"
      image := some "https://www.syf.com/img/hero_ashley.jpg"
      priority := some 1
      productType := none
      industry := some
        [{ name := "FURNITURE", icon := some "https://www.syf.com/img/icon_chair.png" },
         { name := "HOME IMPROVEMENT",
           icon := some "https://www.syf.com/img/icon_home-improvement.png" }]
      network := some
        { name := "SYF HOME"
          description := some "A SYF HOME Partner"
          icon := some "https://www.syf.com/img/icon_home_program-dk_teal.png"
          pageUrl := some "https://www.syf.com/home/cardholder.html" }
      region := some ["MIDWEST", "NORTHEAST", "SOUTH", "SOUTHEAST", "WEST"] }
  productType := none
  links := some
    [{ linkLabel := "Card Details", linkUrl := "https://www.ashley.com/creditcard",
       linkPlacement := 1 },
     { linkLabel := "Pre-qualify",
       linkUrl := "https://apply.syf.com/eapply/eapply.action?clientCode=ASHLEY&preQual=Y",
       linkPlacement := 2 },
     { linkLabel := "Apply",
       linkUrl := "https://apply.syf.com/eapply/eapply.action?clientCode=ASHLEY",
       linkPlacement := 3 }]
  expiryMsg := some "Offer valid through Dec 2024"
  price := none
  discount := none
  link := none

/-- Offer `slot-002`: Rooms To Go. -/
def offerRoomsToGo : Offer where
  slotId := some "slot-002"
  groupId := some "987654322"
  offerId := some "offer-furniture-002"
  title := "No Interest if Paid in Full within 18 Months"
  subtitle := some "On purchases of $999 or more at Rooms To Go with your Rooms To Go credit card."
  disclosure := some "Interest will be charged from purchase date if balance not paid within 18 months."
  keywords := some ["Furniture", "Financing"]
  offerImage := some
    { default := some "https://placeholder.syf.com/img/roomstogo_318_510.png"
      sizes := [("318x510", "https://placeholder.syf.com/img/roomstogo_318_510.png"),
                ("221x139", "https://placeholder.syf.com/img/roomstogo_221_139.png")] }
  startDate := some "2024-01-01"
  endDate := some "2024-12-31"
  offerType := some
    { name := "FINANCING OFFERS", icon := some "https://www.syf.com/img/icon_financing.png" }
  brand := some
    { name := "Rooms To Go"
      featured := some false
      logo := some "https://www.syf.com/img/rooms_to_go_logo.jpg"
      image := none
      priority := some 5
      productType := none
      industry := some
        [{ name := "FURNITURE", icon := some "https://www.syf.com/img/icon_chair.png" }]
      network := some
        { name := "SYF HOME"
          description := some "A SYF HOME Partner"
          icon := some "https://www.syf.com/img/icon_home_program-dk_teal.png"
          pageUrl := some "https://www.syf.com/home/cardholder.html" }
      region := some ["SOUTH", "SOUTHEAST", "MIDWEST"] }
  productType := none
  links := some
    [{ linkLabel := "Card Details", linkUrl := "https://www.roomstogo.com/creditcard",
       linkPlacement := 1 },
     { linkLabel := "Apply",
       linkUrl := "https://apply.syf.com/eapply/eapply.action?clientCode=ROOMSTOGO",
       linkPlacement := 2 }]
  expiryMsg := some "Offer expires Dec 31, 2024"
  price := none
  discount := none
  link := none

/-- Offer `slot-003`: Samsung. -/
def offerSamsung : Offer where
  slotId := some "slot-003"
  groupId := some "987654323"
  offerId := some "offer-electronics-001"
  title := "Save $200 on Select Samsung 4K TVs"
  subtitle := some "Purchase any qualifying Samsung TV using your Samsung Financing card."
  disclosure := some "Discount applied at point of sale. Offer valid at participating retailers only."
  keywords := some ["Electronics", "TV", "Samsung"]
  offerImage := some
    { default := some "https://placeholder.syf.com/img/samsung_318_510.png"
      sizes := [("318x510", "https://placeholder.syf.com/img/samsung_318_510.png"),
                ("221x139", "https://placeholder.syf.com/img/samsung_221_139.png")] }
  startDate := some "2024-03-01"
  endDate := some "2024-09-30"
  offerType := some { name := "DEALS", icon := some "https://www.syf.com/img/icon_deals.png" }
  brand := some
    { name := "Samsung"
      featured := some true
      logo := some "https://www.syf.com/img/samsung_logo.jpg"
      image := none
      priority := some 2
      productType := none
      industry := some
        [{ name := "ELECTRONICS & APPLIANCES",
           icon := some "https://www.syf.com/img/icon_electronics.png" }]
      network := some
        { name := "SYF HOME"
          description := some "A SYF HOME Partner"
          icon := some "https://www.syf.com/img/icon_home_program-dk_teal.png"
          pageUrl := some "https://www.syf.com/home/cardholder.html" }
      region := some ["MIDWEST", "NORTHEAST", "SOUTH", "SOUTHEAST", "WEST"] }
  productType := none
  links := some
    [{ linkLabel := "Shop TVs",
       linkUrl := "https://www.samsung.com/us/televisions-home-theater/",
       linkPlacement := 1 },
     { linkLabel := "Apply",
       linkUrl := "https://apply.syf.com/eapply/eapply.action?clientCode=SAMSUNG",
       linkPlacement := 2 }]
  expiryMsg := some "Limited time offer"
  price := none
  discount := none
  link := none

/-- Offer `slot-004`: Best Buy. -/
def offerBestBuy : Offer where
  slotId := some "slot-004"
  groupId := some "987654324"
  offerId := some "offer-electronics-002"
  title := "6-Month No Interest Financing on Purchases Over $199"
  subtitle := some "Use your Best Buy Credit Card on qualifying electronics purchases."
  disclosure := some "No interest if paid in full within 6 months. Minimum monthly payments required."
  keywords := some ["Electronics", "Appliances", "Financing"]
  offerImage := some
    { default := some "https://placeholder.syf.com/img/bestbuy_318_510.png"
      sizes := [("318x510", "https://placeholder.syf.com/img/bestbuy_318_510.png"),
                ("221x139", "https://placeholder.syf.com/img/bestbuy_221_139.png")] }
  startDate := some "2024-01-01"
  endDate := some "2024-12-31"
  offerType := some
    { name := "FINANCING OFFERS", icon := some "https://www.syf.com/img/icon_financing.png" }
  brand := some
    { name := "Best Buy"
      featured := some true
      logo := some "https://www.syf.com/img/bestbuy_logo.jpg"
      image := none
      priority := some 3
      productType := none
      industry := some
        [{ name := "ELECTRONICS & APPLIANCES",
           icon := some "https://www.syf.com/img/icon_electronics.png" }]
      network := some
        { name := "SYF HOME"
          description := some "A SYF HOME Partner"
          icon := some "https://www.syf.com/img/icon_home_program-dk_teal.png"
          pageUrl := some "https://www.syf.com/home/cardholder.html" }
      region := some ["MIDWEST", "NORTHEAST", "SOUTH", "SOUTHEAST", "WEST"] }
  productType := none
  links := some
    [{ linkLabel := "Card Details", linkUrl := "https://www.bestbuy.com/credit-cards",
       linkPlacement := 1 },
     { linkLabel := "Pre-qualify",
       linkUrl := "https://apply.syf.com/eapply/eapply.action?clientCode=BESTBUY&preQual=Y",
       linkPlacement := 2 },
     { linkLabel := "Apply",
       linkUrl := "https://apply.syf.com/eapply/eapply.action?clientCode=BESTBUY",
       linkPlacement := 3 }]
  expiryMsg := some "Ongoing offer"
  price := none
  discount := none
  link := none

/-- Offer `slot-005`: Lowe's. -/
def offerLowes : Offer where
  slotId := some "slot-005"
  groupId := some "987654325"
  offerId := some "offer-home-001"
  title := "Everyday 5% Off with the Lowe's Advantage Card"
  subtitle := some "Save 5% instantly on all eligible purchases at Lowe's every day."
  disclosure := some "5% off discount is not combinable with other Lowe's offers or discounts."
  keywords := some ["Home Improvement", "Everyday Value"]
  offerImage := some
    { default := some "https://placeholder.syf.com/img/lowes_318_510.png"
      sizes := [("318x510", "https://placeholder.syf.com/img/lowes_318_510.png"),
                ("221x139", "https://placeholder.syf.com/img/lowes_221_139.png")] }
  startDate := some "2024-01-01"
  endDate := some "2024-12-31"
  offerType := some
    { name := "EVERYDAY VALUE", icon := some "https://www.syf.com/img/icon_everyday.png" }
  brand := some
    { name := "Lowe's"
      featured := some true
      logo := some "https://www.syf.com/img/lowes_logo.jpg"
      image := none
      priority := some 4
      productType := none
      industry := some
        [{ name := "HOME IMPROVEMENT",
           icon := some "https://www.syf.com/img/icon_home-improvement.png" }]
      network := some
        { name := "SYF HOME"
          description := some "A SYF HOME Partner"
          icon := some "https://www.syf.com/img/icon_home_program-dk_teal.png"
          pageUrl := some "https://www.syf.com/home/cardholder.html" }
      region := some ["MIDWEST", "NORTHEAST", "SOUTH", "SOUTHEAST", "WEST"] }
  productType := none
  links := some
    [{ linkLabel := "Card Details",
       linkUrl := "https://www.lowes.com/l/credit/advantage-card-benefits",
       linkPlacement := 1 },
     { linkLabel := "Apply",
       linkUrl := "https://apply.syf.com/eapply/eapply.action?clientCode=LOWES",
       linkPlacement := 2 }]
  expiryMsg := some "Everyday offer — no expiry"
  price := none
  discount := none
  link := none

/-- Offer `slot-006`: Express Oil Change. -/
def offerExpressOil : Offer where
  slotId := some "slot-006"
  groupId := some "987654326"
  offerId := some "offer-car-001"
  title := "Get up to a $100 Visa Prepaid Card on Auto Services"
  subtitle := some "When you use your Express Oil Change credit card at a participating location."
  disclosure := some "Offer valid 6/12/24 - 7/10/24. One reward per cardholder."
  keywords := some ["Auto", "Car Care"]
  offerImage := some
    { default := some "https://placeholder.syf.com/img/carcare_318_510.png"
      sizes := [("318x510", "https://placeholder.syf.com/img/carcare_318_510.png"),
                ("221x139", "https://placeholder.syf.com/img/carcare_221_139.png")] }
  startDate := some "2024-06-12"
  endDate := some "2024-07-10"
  offerType := some
    { name := "DEALS", icon := some "https://www.syf.com/img/icon_car_care_program-teal.png" }
  brand := some
    { name := "Express Oil Change & Tire Engineers"
      featured := some false
      logo := some "https://www.syf.com/img/express_oil_logo.jpg"
      image := none
      priority := some 8
      productType := none
      industry := some []
      network := some
        { name := "SYF CAR CARE"
          description := some "A SYF CAR CARE Partner"
          icon := some "https://www.syf.com/img/icon_car_care_program-teal.png"
          pageUrl := some "https://www.syf.com/carcare/cardholder.html" }
      region := some ["SOUTH", "SOUTHEAST"] }
  productType := none
  links := some
    [{ linkLabel := "Find Location", linkUrl := "https://www.expressoil.com/locations",
       linkPlacement := 1 },
     { linkLabel := "Apply",
       linkUrl := "https://apply.syf.com/eapply/eapply.action?clientCode=EXPRESSOIL",
       linkPlacement := 2 }]
  expiryMsg := some "Expiring in 7 days"
  price := none
  discount := none
  link := none

/-- The fallback mock dataset of the rich client, in source order. -/
def MOCK_OFFERS : List Offer :=
  [offerAshley, offerRoomsToGo, offerSamsung, offerBestBuy, offerLowes, offerExpressOil]

/-! Section: Fetch with fallback (`fetchOffers`, lines 337–355)

The `try`/`catch` around the `axios.get` call is modelled by an explicit sum
type: `failure` is any thrown failure (network error, timeout, non-2xx
status — axios raises on all of these), and `success body` is a 2xx response,
where `body = none` models a body whose `offers` field is missing or not an
array (`Array.isArray(body.offers)` is false) and `body = some l` a body with
an offers array `l`. -/
inductive UpstreamResult where
  | failure : UpstreamResult
  | success : Option (List Offer) → UpstreamResult
deriving DecidableEq

/-- The candidate list `allOffers` chosen by `fetchOffers`: the mock dataset
on a thrown failure, the body's array (or `[]` when it is missing/not an
array) on success. -/
def candidateOffers : UpstreamResult → List Offer
  | .failure => MOCK_OFFERS
  | .success none => []
  | .success (some l) => l

/-- `fetchOffers`: choose the candidate list, then run the filter/paginate
pipeline. The function is total — no failure escapes to the caller. -/
def fetchOffers (u : UpstreamResult) (input : GetOffersInput) : List Offer :=
  fetchOffersPipeline input (candidateOffers u)

/-! Section: Query combination (for the AND-composition property) -/

/-- The query holding the filters of both `q1` and `q2`: field-wise, the set
field of whichever query sets it (`q1` preferred). -/
def unionQuery (q1 q2 : GetOffersInput) : GetOffersInput where
  category := q1.category <|> q2.category
  maxPrice := q1.maxPrice <|> q2.maxPrice
  industry := q1.industry <|> q2.industry
  offerType := q1.offerType <|> q2.offerType
  region := q1.region <|> q2.region
  network := q1.network <|> q2.network
  brand := q1.brand <|> q2.brand
  featured := q1.featured <|> q2.featured
  limitOffersCount := q1.limitOffersCount <|> q2.limitOffersCount
  offset := q1.offset <|> q2.offset

/-- Two queries activate disjoint sets of filter fields (no filter field is
set by both), so their union is unambiguous. -/
def DisjointFilters (q1 q2 : GetOffersInput) : Prop :=
  (q1.category = none ∨ q2.category = none)
  ∧ (q1.industry = none ∨ q2.industry = none)
  ∧ (q1.offerType = none ∨ q2.offerType = none)
  ∧ (q1.region = none ∨ q2.region = none)
  ∧ (q1.network = none ∨ q2.network = none)
  ∧ (q1.brand = none ∨ q2.brand = none)
  ∧ (q1.featured = none ∨ q2.featured = none)

/-- A query that requests no pagination. -/
def NoPagination (q : GetOffersInput) : Prop :=
  q.offset = none ∧ q.limitOffersCount = none

/-- Order-preserving intersection of two offer lists: the elements of `a`
that also occur in `b`. -/
def listInter (a b : List Offer) : List Offer :=
  a.filter fun o => decide (o ∈ b)

/-! Section: Result projection (spec §4.3)

Modelled from the spec: the rich Result Projector (`formatOfferForChatGPT`,
described in README "Data Flow" step 5 and spec §4.3) is not among the
sources under `src/` — the tool handler present there is the legacy one, and
only the projector's description exists. The reduced object below carries
exactly the caller-relevant fields the spec lists: id, title, subtitle, offer
type name, brand name/featured/industries/network/regions, links as
label+url pairs, keywords, expiry message, start/end dates, disclosure. -/
structure ReducedOffer where
  id : Option String
  title : String
  subtitle : Option String
  offerTypeName : Option String
  brandName : Option String
  brandFeatured : Option Bool
  brandIndustries : List String
  brandNetwork : Option String
  brandRegions : List String
  links : List (String × String)
  keywords : List String
  expiryMsg : Option String
  startDate : Option String
  endDate : Option String
  disclosure : Option String
deriving DecidableEq

/-- Modelled from the spec: per-offer projection of the Result Projector.
Emits only the caller-relevant fields; `slotId`, `groupId` and the raw
`offerImage` assets are dropped. -/
def formatOfferForChatGPT (o : Offer) : ReducedOffer where
  id := o.offerId
  title := o.title
  subtitle := o.subtitle
  offerTypeName := o.offerType.map OfferType.name
  brandName := o.brand.map Brand.name
  brandFeatured := o.brand.bind Brand.featured
  brandIndustries := ((o.brand.bind Brand.industry).getD []).map Industry.name
  brandNetwork := (o.brand.bind Brand.network).map Network.name
  brandRegions := (o.brand.bind Brand.region).getD []
  links := (o.links.getD []).map fun lk => (lk.linkLabel, lk.linkUrl)
  keywords := o.keywords.getD []
  expiryMsg := o.expiryMsg
  startDate := o.startDate
  endDate := o.endDate
  disclosure := o.disclosure

namespace Legacy

/-! Section: Legacy mock client and tool handler

`src/api/synchronyClient.ts` (`fetchOffersFromSynchrony` with its 8-offer
mock list, legacy offer shape) and `src/tools/getOffers.ts`
(`handleGetOffers`). -/

/-- The legacy offer shape (`OfferSchema`, legacy): title, price, optional
discount, link. -/
structure Offer where
  title : String
  price : Rat
  discount : Option String
  link : String
deriving DecidableEq

/-- The legacy 8-offer mock dataset. -/
def MOCK_OFFERS : List Offer :=
  [⟨"Serta Perfect Sleeper Queen Mattress", 799.99,
    some "15% off for Synchrony cardholders",
    "https://marketplace.synchrony.com/offers/beds-001"⟩,
   ⟨"Sealy Posturepedic King Mattress", 1199.99,
    some "12-month no interest financing",
    "https://marketplace.synchrony.com/offers/beds-002"⟩,
   ⟨"Nectar Memory Foam Twin Mattress", 399.00, none,
    "https://marketplace.synchrony.com/offers/beds-003"⟩,
   ⟨"Samsung 65\" 4K QLED Smart TV", 1299.99,
    some "Save $200 – Limited time offer",
    "https://marketplace.synchrony.com/offers/electronics-001"⟩,
   ⟨"Apple MacBook Air M2 (15-inch)", 1099.00,
    some "6-month no interest financing",
    "https://marketplace.synchrony.com/offers/electronics-002"⟩,
   ⟨"Sony WH-1000XM5 Headphones", 279.99, none,
    "https://marketplace.synchrony.com/offers/electronics-003"⟩,
   ⟨"LG French Door Refrigerator 27 cu. ft.", 1749.99,
    some "18-month no interest financing available",
    "https://marketplace.synchrony.com/offers/appliances-001"⟩,
   ⟨"Whirlpool Top Load Washer & Dryer Bundle", 899.00,
    some "10% off bundle deal",
    "https://marketplace.synchrony.com/offers/appliances-002"⟩]

/-- The legacy mock client: filter by category (case-insensitive substring of
title or link), then by optional `maxPrice` (`offer.price <= priceLimit`). -/
def fetchOffersFromSynchrony (category : String) (maxPrice : Option Rat) :
    List Offer :=
  let normalizedCategory := jsTrim (jsToLower category)
  let filtered := MOCK_OFFERS.filter fun offer =>
    strIncludes (jsToLower offer.title) normalizedCategory
    || strIncludes (jsToLower offer.link) normalizedCategory
  match maxPrice with
  | some priceLimit => filtered.filter fun offer => decide (offer.price ≤ priceLimit)
  | none => filtered

/-- Model of JavaScript `Number.prototype.toFixed(2)` for the non-negative
prices used here: round to cents and print with two decimal digits. -/
def toFixed2 (q : Rat) : String :=
  let cents : Int := ⌊q * 100 + 1 / 2⌋
  toString (cents / 100) ++ "." ++
    (if (cents % 100).toNat < 10 then "0" ++ toString (cents % 100).toNat
     else toString (cents % 100).toNat)

/-- An MCP tool call result as produced by `handleGetOffers`. In the source
every branch returns `{ content: [{ type: "text", text }] }`; the success
branch's text is `JSON.stringify` of the payload envelope, kept here as the
envelope's components; only the catch branch sets `isError: true`. -/
inductive ToolResult where
  | message : String → ToolResult
  | payload : String → Option Rat → Nat → List Offer → ToolResult
  | error : String → ToolResult
deriving DecidableEq

/-- Whether a tool result is flagged as an error (`isError: true`). -/
def ToolResult.isError : ToolResult → Bool
  | .error _ => true
  | _ => false

/-- The legacy `get_offers` tool handler: fetch, then either the "no offers"
message (naming the category, and the maxPrice only when it is truthy) or
the payload envelope `{ category, maxPrice, totalOffers, offers }`. -/
def handleGetOffers (category : String) (maxPrice : Option Rat) : ToolResult :=
  let offers := fetchOffersFromSynchrony category maxPrice
  if offers.length = 0 then
    .message
      (match maxPrice with
       | some m =>
           if m ≠ 0 then
             "No offers found in \"" ++
               (category ++ ("\" under $" ++ (toFixed2 m ++ ".")))
           else "No offers found in \"" ++ (category ++ "\".")
       | none => "No offers found in \"" ++ (category ++ "\"."))
  else
    .payload category maxPrice offers.length offers

end Legacy

/-! Section: Concrete inputs used by witnesses and counterexamples -/

/-- An offer with only the required `title`: every optional field absent. -/
def offerNoBrand : Offer :=
  ⟨none, none, none, "Untagged offer", none, none, none, none, none, none,
   none, none, none, none, none, none, none, none⟩

/-- A second bare offer, distinct from `offerNoBrand`. -/
def offerNoBrandB : Offer :=
  ⟨none, none, none, "Second untagged offer", none, none, none, none, none,
   none, none, none, none, none, none, none, none, none⟩

/-- Query requesting only page `[10, 15)`. -/
def queryOffset10Limit5 : GetOffersInput :=
  { emptyQuery with offset := some 10, limitOffersCount := some 5 }

/-- Query setting only `offset := 1`. -/
def queryOffset1 : GetOffersInput := { emptyQuery with offset := some 1 }

/-- Query setting only `limitOffersCount := 1`. -/
def queryLimit1 : GetOffersInput := { emptyQuery with limitOffersCount := some 1 }

/-- Query setting only `brand := "best"`. -/
def queryBrandBest : GetOffersInput := { emptyQuery with brand := some "best" }

/-- Query setting only `featured := true`. -/
def queryFeaturedTrue : GetOffersInput := { emptyQuery with featured := some true }

/-- Query setting only `maxPrice := 5`. -/
def queryMaxPrice5 : GetOffersInput := { emptyQuery with maxPrice := some 5 }

/-- Query setting only `category := "furniture"`. -/
def queryCategoryFurniture : GetOffersInput :=
  { emptyQuery with category := some "furniture" }

/-! Section: Total per-stage predicates

For each stage, the predicate it applies, extended to every query value
(`true` when the stage is inactive).  `stageX input l = l.filter (xPred …)`
is proved below, and the conjunction `keepAll` characterises stages 1–7. -/

/-- Stage 1 as a total predicate of the query's `industry` field. -/
def industryPred : Option (List String) → Offer → Bool
  | some is, o => if 0 < is.length then industryKeep (is.map jsToUpper) o else true
  | none, _ => true

/-- Stage 2 as a total predicate of the query's `category` field. -/
def categoryPred : Option String → Offer → Bool
  | some c, o => if c ≠ "" then categoryKeep (jsTrim (jsToLower c)) o else true
  | none, _ => true

/-- Stage 3 as a total predicate of the query's `offerType` field. -/
def offerTypePred : Option (List String) → Offer → Bool
  | some ts, o => if 0 < ts.length then offerTypeKeep (ts.map jsToUpper) o else true
  | none, _ => true

/-- Stage 4 as a total predicate of the query's `region` field. -/
def regionPred : Option String → Offer → Bool
  | some r, o => if r ≠ "" then regionKeep (jsToUpper r) o else true
  | none, _ => true

/-- Stage 5 as a total predicate of the query's `network` field. -/
def networkPred : Option (List String) → Offer → Bool
  | some ns, o => if 0 < ns.length then networkKeep (ns.map jsToUpper) o else true
  | none, _ => true

/-- Stage 6 as a total predicate of the query's `brand` field. -/
def brandPred : Option String → Offer → Bool
  | some b, o => if b ≠ "" then brandKeep (jsToLower b) o else true
  | none, _ => true

/-- Stage 7 as a total predicate of the query's `featured` field. -/
def featuredPred : Option Bool → Offer → Bool
  | some f, o => featuredKeep f o
  | none, _ => true

/-- The conjunction of all seven filter-stage predicates (nested the way
repeated `List.filter_filter` merges the stages, outermost stage first). -/
def keepAll (q : GetOffersInput) (o : Offer) : Bool :=
  featuredPred q.featured o &&
    (brandPred q.brand o &&
      (networkPred q.network o &&
        (regionPred q.region o &&
          (offerTypePred q.offerType o &&
            (categoryPred q.category o && industryPred q.industry o)))))

/-- All filter-stage predicates except the category one. -/
def keepAllExceptCategory (q : GetOffersInput) (o : Offer) : Bool :=
  featuredPred q.featured o &&
    (brandPred q.brand o &&
      (networkPred q.network o &&
        (regionPred q.region o &&
          (offerTypePred q.offerType o && industryPred q.industry o))))

/-! Section: Helper lemmas -/

theorem strIncludes_append_mid (x m y : String) :
    strIncludes (x ++ (m ++ y)) m = true := by
  apply decide_eq_true
  exact ⟨x.data, y.data, by simp [List.append_assoc]⟩

theorem strIncludes_empty (x : String) : strIncludes x "" = true := by
  apply decide_eq_true
  exact ⟨[], x.data, rfl⟩

theorem filter_ite (c : Prop) [Decidable c] (p : Offer → Bool) (l : List Offer) :
    l.filter (fun o => if c then p o else true) = if c then l.filter p else l := by
  split
  · rfl
  · exact List.filter_eq_self.mpr fun a _ => rfl

theorem stageIndustry_eq_filter (q : GetOffersInput) (l : List Offer) :
    stageIndustry q l = l.filter (industryPred q.industry) := by
  cases h : q.industry with
  | none =>
    simp only [stageIndustry, h]
    exact (List.filter_eq_self.mpr fun a _ => rfl).symm
  | some is =>
    simp only [stageIndustry, h]
    have hp : industryPred (some is)
        = fun o => if 0 < is.length then industryKeep (is.map jsToUpper) o else true := rfl
    rw [hp, filter_ite]

theorem stageCategory_eq_filter (q : GetOffersInput) (l : List Offer) :
    stageCategory q l = l.filter (categoryPred q.category) := by
  cases h : q.category with
  | none =>
    simp only [stageCategory, h]
    exact (List.filter_eq_self.mpr fun a _ => rfl).symm
  | some c =>
    simp only [stageCategory, h]
    have hp : categoryPred (some c)
        = fun o => if c ≠ "" then categoryKeep (jsTrim (jsToLower c)) o else true := rfl
    rw [hp, filter_ite]

theorem stageOfferType_eq_filter (q : GetOffersInput) (l : List Offer) :
    stageOfferType q l = l.filter (offerTypePred q.offerType) := by
  cases h : q.offerType with
  | none =>
    simp only [stageOfferType, h]
    exact (List.filter_eq_self.mpr fun a _ => rfl).symm
  | some ts =>
    simp only [stageOfferType, h]
    have hp : offerTypePred (some ts)
        = fun o => if 0 < ts.length then offerTypeKeep (ts.map jsToUpper) o else true := rfl
    rw [hp, filter_ite]

theorem stageRegion_eq_filter (q : GetOffersInput) (l : List Offer) :
    stageRegion q l = l.filter (regionPred q.region) := by
  cases h : q.region with
  | none =>
    simp only [stageRegion, h]
    exact (List.filter_eq_self.mpr fun a _ => rfl).symm
  | some r =>
    simp only [stageRegion, h]
    have hp : regionPred (some r)
        = fun o => if r ≠ "" then regionKeep (jsToUpper r) o else true := rfl
    rw [hp, filter_ite]

theorem stageNetwork_eq_filter (q : GetOffersInput) (l : List Offer) :
    stageNetwork q l = l.filter (networkPred q.network) := by
  cases h : q.network with
  | none =>
    simp only [stageNetwork, h]
    exact (List.filter_eq_self.mpr fun a _ => rfl).symm
  | some ns =>
    simp only [stageNetwork, h]
    have hp : networkPred (some ns)
        = fun o => if 0 < ns.length then networkKeep (ns.map jsToUpper) o else true := rfl
    rw [hp, filter_ite]

theorem stageBrand_eq_filter (q : GetOffersInput) (l : List Offer) :
    stageBrand q l = l.filter (brandPred q.brand) := by
  cases h : q.brand with
  | none =>
    simp only [stageBrand, h]
    exact (List.filter_eq_self.mpr fun a _ => rfl).symm
  | some b =>
    simp only [stageBrand, h]
    have hp : brandPred (some b)
        = fun o => if b ≠ "" then brandKeep (jsToLower b) o else true := rfl
    rw [hp, filter_ite]

theorem stageFeatured_eq_filter (q : GetOffersInput) (l : List Offer) :
    stageFeatured q l = l.filter (featuredPred q.featured) := by
  cases h : q.featured with
  | none =>
    simp only [stageFeatured, h]
    exact (List.filter_eq_self.mpr fun a _ => rfl).symm
  | some f => simp only [stageFeatured, h]; rfl

theorem applyFilters_eq_filter (q : GetOffersInput) (l : List Offer) :
    applyFilters q l = l.filter (keepAll q) := by
  simp only [applyFilters, stageIndustry_eq_filter, stageCategory_eq_filter,
    stageOfferType_eq_filter, stageRegion_eq_filter, stageNetwork_eq_filter,
    stageBrand_eq_filter, stageFeatured_eq_filter, List.filter_filter]
  rfl

theorem industryPred_union (a b : Option (List String)) (h : a = none ∨ b = none)
    (o : Offer) : industryPred (a <|> b) o = (industryPred a o && industryPred b o) := by
  cases h with
  | inl ha => subst ha; simp [industryPred]
  | inr hb =>
    subst hb
    cases a with
    | none => simp [industryPred]
    | some is => simp [industryPred]

theorem categoryPred_union (a b : Option String) (h : a = none ∨ b = none)
    (o : Offer) : categoryPred (a <|> b) o = (categoryPred a o && categoryPred b o) := by
  cases h with
  | inl ha => subst ha; simp [categoryPred]
  | inr hb =>
    subst hb
    cases a with
    | none => simp [categoryPred]
    | some c => simp [categoryPred]

theorem offerTypePred_union (a b : Option (List String)) (h : a = none ∨ b = none)
    (o : Offer) : offerTypePred (a <|> b) o = (offerTypePred a o && offerTypePred b o) := by
  cases h with
  | inl ha => subst ha; simp [offerTypePred]
  | inr hb =>
    subst hb
    cases a with
    | none => simp [offerTypePred]
    | some ts => simp [offerTypePred]

theorem regionPred_union (a b : Option String) (h : a = none ∨ b = none)
    (o : Offer) : regionPred (a <|> b) o = (regionPred a o && regionPred b o) := by
  cases h with
  | inl ha => subst ha; simp [regionPred]
  | inr hb =>
    subst hb
    cases a with
    | none => simp [regionPred]
    | some r => simp [regionPred]

theorem networkPred_union (a b : Option (List String)) (h : a = none ∨ b = none)
    (o : Offer) : networkPred (a <|> b) o = (networkPred a o && networkPred b o) := by
  cases h with
  | inl ha => subst ha; simp [networkPred]
  | inr hb =>
    subst hb
    cases a with
    | none => simp [networkPred]
    | some ns => simp [networkPred]

theorem brandPred_union (a b : Option String) (h : a = none ∨ b = none)
    (o : Offer) : brandPred (a <|> b) o = (brandPred a o && brandPred b o) := by
  cases h with
  | inl ha => subst ha; simp [brandPred]
  | inr hb =>
    subst hb
    cases a with
    | none => simp [brandPred]
    | some b' => simp [brandPred]

theorem featuredPred_union (a b : Option Bool) (h : a = none ∨ b = none)
    (o : Offer) : featuredPred (a <|> b) o = (featuredPred a o && featuredPred b o) := by
  cases h with
  | inl ha => subst ha; simp [featuredPred]
  | inr hb =>
    subst hb
    cases a with
    | none => simp [featuredPred]
    | some f => simp [featuredPred]

theorem and_distrib7 (a₁ a₂ b₁ b₂ c₁ c₂ d₁ d₂ e₁ e₂ f₁ f₂ g₁ g₂ : Bool) :
    ((a₁ && a₂) && ((b₁ && b₂) && ((c₁ && c₂) && ((d₁ && d₂) &&
        ((e₁ && e₂) && ((f₁ && f₂) && (g₁ && g₂)))))))
      = ((a₁ && (b₁ && (c₁ && (d₁ && (e₁ && (f₁ && g₁))))))
          && (a₂ && (b₂ && (c₂ && (d₂ && (e₂ && (f₂ && g₂))))))) := by
  cases a₁ <;> cases b₁ <;> cases c₁ <;> cases d₁ <;> cases e₁ <;> cases f₁ <;> cases g₁ <;>
    simp

theorem keepAll_union (q1 q2 : GetOffersInput) (hd : DisjointFilters q1 q2) (o : Offer) :
    keepAll (unionQuery q1 q2) o = (keepAll q1 o && keepAll q2 o) := by
  obtain ⟨hc, hi, ht, hr, hn, hb, hf⟩ := hd
  show (featuredPred (q1.featured <|> q2.featured) o &&
      (brandPred (q1.brand <|> q2.brand) o &&
        (networkPred (q1.network <|> q2.network) o &&
          (regionPred (q1.region <|> q2.region) o &&
            (offerTypePred (q1.offerType <|> q2.offerType) o &&
              (categoryPred (q1.category <|> q2.category) o &&
                industryPred (q1.industry <|> q2.industry) o)))))) = _
  rw [featuredPred_union _ _ hf, brandPred_union _ _ hb, networkPred_union _ _ hn,
    regionPred_union _ _ hr, offerTypePred_union _ _ ht, categoryPred_union _ _ hc,
    industryPred_union _ _ hi]
  exact and_distrib7 _ _ _ _ _ _ _ _ _ _ _ _ _ _

theorem keepAll_pull_category (a b c d e f g : Bool) :
    (a && (b && (c && (d && (e && (f && g))))))
      = ((a && (b && (c && (d && (e && g))))) && f) := by
  cases a <;> cases b <;> cases c <;> cases d <;> cases e <;> cases f <;> cases g <;> rfl

theorem categoryPred_some (c : String) (o : Offer) :
    categoryPred (some c) o = categoryKeep (jsTrim (jsToLower c)) o := by
  by_cases hc : c = ""
  · subst hc
    have h0 : jsTrim (jsToLower "") = "" := rfl
    have h3 : strIncludes (jsToLower o.title) "" = true := strIncludes_empty _
    simp [categoryPred, categoryKeep, h0, h3]
  · simp [categoryPred, hc]

theorem paginate_noop (q : GetOffersInput) (l : List Offer)
    (hoff : q.offset = none) (hlim : q.limitOffersCount = none) :
    paginate q l = l := by
  simp [paginate, hoff, hlim]

/-! Section: Claims -/

/-- C1: with the 6-offer fallback mock dataset as the candidate list, the
filter/paginate pipeline returns: for `{featured: true}` exactly the four
offers whose `brand.featured` is true (Ashley, Samsung, Best Buy, Lowe's); for
`{network: ["SYF CAR CARE"]}` exactly the Express Oil Change offer; for
`{industry: ["JEWELRY"]}` the empty list; for `{brand: "best"}` exactly the
Best Buy offer; and for `{offset: 10, limitOffersCount: 5}` the empty list. -/
theorem C1_fallback_dataset_scenarios :
    fetchOffersPipeline { emptyQuery with featured := some true } MOCK_OFFERS
      = [offerAshley, offerSamsung, offerBestBuy, offerLowes]
    ∧ fetchOffersPipeline { emptyQuery with network := some ["SYF CAR CARE"] } MOCK_OFFERS
      = [offerExpressOil]
    ∧ fetchOffersPipeline { emptyQuery with industry := some ["JEWELRY"] } MOCK_OFFERS = []
    ∧ fetchOffersPipeline { emptyQuery with brand := some "best" } MOCK_OFFERS
      = [offerBestBuy]
    ∧ fetchOffersPipeline { emptyQuery with offset := some 10, limitOffersCount := some 5 }
        MOCK_OFFERS = [] :=
  ⟨rfl, rfl, rfl, rfl, rfl⟩

/-- C2: for every candidate list and query, the pipeline's result is the slice
`[start, start+limit)` of the filtered list with `start = offset ?? 0` and
`limit = limitOffersCount ?? remaining length`; `offset` at or beyond the
filtered length yields `[]` rather than an error; `offset = 0` (or unset) with
`limitOffersCount` unset returns the whole filtered list unchanged; and the
pagination stage runs for every query. -/
theorem C2_pagination_bounds (input : GetOffersInput) (l : List Offer) :
    fetchOffersPipeline input l
      = ((applyFilters input l).drop (input.offset.getD 0)).take
          (input.limitOffersCount.getD (applyFilters input l).length)
    ∧ ((applyFilters input l).length ≤ input.offset.getD 0 →
        fetchOffersPipeline input l = [])
    ∧ (input.offset.getD 0 = 0 → input.limitOffersCount = none →
        fetchOffersPipeline input l = applyFilters input l) := by
  refine ⟨rfl, fun h => ?_, fun h0 hl => ?_⟩
  · show paginate input (applyFilters input l) = []
    unfold paginate
    rw [List.drop_eq_nil_of_le h]
    exact List.take_nil
  · show paginate input (applyFilters input l) = applyFilters input l
    unfold paginate
    rw [h0, hl]
    simp

/-- C2 witness: a query with `offset = 10, limitOffersCount = 5` against a
one-offer filtered list yields the empty page. -/
theorem C2_pagination_bounds_witness :
    fetchOffersPipeline queryOffset10Limit5 [offerNoBrand] = [] :=
  (C2_pagination_bounds queryOffset10Limit5 [offerNoBrand]).2.1 (by decide)

/-- C3 counterexample: a 2xx upstream response whose body lacks a well-formed
`offers` array is one of the claim's failure modes ("malformed body"), yet
`fetchOffers` then uses the empty list as candidate list, not the mock
dataset: with the all-unset query it returns `[]` while the pipeline over
`MOCK_OFFERS` returns all six mock offers. -/
theorem C3_counterexample :
    fetchOffers (UpstreamResult.success none) emptyQuery
      ≠ fetchOffersPipeline emptyQuery MOCK_OFFERS := by
  decide

/-- C3 (amended): when the upstream fetch throws (network error, timeout,
non-2xx status), `fetchOffers` uses the in-memory mock dataset as the
candidate list and applies the same filter pipeline to it; when the fetch
succeeds but the body's `offers` field is missing or not an array, the
candidate list is empty instead; and with a well-formed body the body's array
is the candidate list. In every case the caller receives a list from the same
pipeline and never observes an error. -/
theorem C3_fallback_behaviour :
    (∀ input, fetchOffers UpstreamResult.failure input
        = fetchOffersPipeline input MOCK_OFFERS)
    ∧ (∀ input, fetchOffers (UpstreamResult.success none) input
        = fetchOffersPipeline input [])
    ∧ (∀ input l, fetchOffers (UpstreamResult.success (some l)) input
        = fetchOffersPipeline input l) :=
  ⟨fun _ => rfl, fun _ => rfl, fun _ _ => rfl⟩

/-- C4: the client-facing reduced offer emitted for each offer of a
successful `get_offers` response omits the internal correlation identifiers
`slotId` and `groupId` and the raw image assets: the projection's output is
unchanged under arbitrary replacement of those three fields, so they never
appear in the tool output. -/
theorem C4_projection_drops_internal (o : Offer) (s g : Option String)
    (img : Option OfferImage) :
    formatOfferForChatGPT { o with slotId := s, groupId := g, offerImage := img }
      = formatOfferForChatGPT o := rfl

/-- C5: an offer whose `brand` field is absent is excluded by every
brand-dependent filter stage (industry, region, network, brand substring,
featured) for every query value: each stage predicate evaluates to `false`
(rather than throwing), and whenever such a stage is active the offer is not
a member of its output. -/
theorem C5_absence_safety (o : Offer) (h : o.brand = none) :
    (∀ fs, industryKeep fs o = false)
    ∧ (∀ r, regionKeep r o = false)
    ∧ (∀ ns, networkKeep ns o = false)
    ∧ (∀ b, brandKeep b o = false)
    ∧ (∀ f, featuredKeep f o = false)
    ∧ (∀ q l is, q.industry = some is → is ≠ [] → o ∉ stageIndustry q l)
    ∧ (∀ q l r, q.region = some r → r ≠ "" → o ∉ stageRegion q l)
    ∧ (∀ q l ns, q.network = some ns → ns ≠ [] → o ∉ stageNetwork q l)
    ∧ (∀ q l b, q.brand = some b → b ≠ "" → o ∉ stageBrand q l)
    ∧ (∀ q l f, q.featured = some f → o ∉ stageFeatured q l) := by
  refine ⟨fun fs => by simp [industryKeep, h],
          fun r => by simp [regionKeep, h],
          fun ns => by simp [networkKeep, h],
          fun b => by simp [brandKeep, h],
          fun f => by simp [featuredKeep, h],
          ?_, ?_, ?_, ?_, ?_⟩
  · intro q l is hq hne hmem
    simp only [stageIndustry, hq, if_pos (List.length_pos.mpr hne)] at hmem
    have := (List.mem_filter.mp hmem).2
    simp [industryKeep, h] at this
  · intro q l r hq hne hmem
    simp only [stageRegion, hq, if_pos hne] at hmem
    have := (List.mem_filter.mp hmem).2
    simp [regionKeep, h] at this
  · intro q l ns hq hne hmem
    simp only [stageNetwork, hq, if_pos (List.length_pos.mpr hne)] at hmem
    have := (List.mem_filter.mp hmem).2
    simp [networkKeep, h] at this
  · intro q l b hq hne hmem
    simp only [stageBrand, hq, if_pos hne] at hmem
    have := (List.mem_filter.mp hmem).2
    simp [brandKeep, h] at this
  · intro q l f hq hmem
    simp only [stageFeatured, hq] at hmem
    have := (List.mem_filter.mp hmem).2
    simp [featuredKeep, h] at this

/-- C5 witness: the bare offer (no `brand`) is rejected by the industry and
featured predicates at concrete query values. -/
theorem C5_absence_safety_witness :
    industryKeep ["JEWELRY"] offerNoBrand = false
    ∧ featuredKeep true offerNoBrand = false :=
  ⟨(C5_absence_safety offerNoBrand rfl).1 ["JEWELRY"],
   (C5_absence_safety offerNoBrand rfl).2.2.2.2.1 true⟩

/-- C6: when `query.category` is set, the category stage keeps exactly the
offers for which the lowercased, trimmed category string is a substring of
some `brand.industry[].name`, or of the brand name, or of the offer title
(all compared lowercased), and this check is ANDed with every other active
filter stage. -/
theorem C6_category_filter (q : GetOffersInput) (l : List Offer) (c : String)
    (h : q.category = some c) :
    stageCategory q l = l.filter (categoryKeep (jsTrim (jsToLower c)))
    ∧ applyFilters q l
        = l.filter fun o =>
            keepAllExceptCategory q o && categoryKeep (jsTrim (jsToLower c)) o := by
  constructor
  · rw [stageCategory_eq_filter, h]
    exact List.filter_congr fun o _ => categoryPred_some c o
  · rw [applyFilters_eq_filter]
    refine List.filter_congr fun o ho => ?_
    show keepAll q o = _
    simp only [keepAll, keepAllExceptCategory, h, categoryPred_some]
    exact keepAll_pull_category _ _ _ _ _ _ _

/-- C6 witness: the category filter at `category = "furniture"` over the mock
dataset. -/
theorem C6_category_filter_witness :
    stageCategory queryCategoryFurniture MOCK_OFFERS
      = MOCK_OFFERS.filter (categoryKeep (jsTrim (jsToLower "furniture")))
    ∧ applyFilters queryCategoryFurniture MOCK_OFFERS
        = MOCK_OFFERS.filter fun o =>
            keepAllExceptCategory queryCategoryFurniture o
              && categoryKeep (jsTrim (jsToLower "furniture")) o :=
  C6_category_filter queryCategoryFurniture MOCK_OFFERS "furniture" rfl

/-- C7: every filter stage only removes elements (its output is an
order-preserving subsequence of its input), the filtered list is a
subsequence of the candidate list, and the paginated result is a subsequence
of both, so the pipeline's output preserves the candidate list's original
relative order. -/
theorem C7_order_preserving (input : GetOffersInput) (l : List Offer) :
    List.Sublist (stageIndustry input l) l ∧ List.Sublist (stageCategory input l) l
    ∧ List.Sublist (stageOfferType input l) l ∧ List.Sublist (stageRegion input l) l
    ∧ List.Sublist (stageNetwork input l) l ∧ List.Sublist (stageBrand input l) l
    ∧ List.Sublist (stageFeatured input l) l
    ∧ List.Sublist (applyFilters input l) l
    ∧ List.Sublist (fetchOffersPipeline input l) (applyFilters input l)
    ∧ List.Sublist (fetchOffersPipeline input l) l := by
  have hpag : List.Sublist (fetchOffersPipeline input l) (applyFilters input l) :=
    (List.take_sublist _ _).trans (List.drop_sublist _ _)
  have happ : List.Sublist (applyFilters input l) l := by
    rw [applyFilters_eq_filter]; exact List.filter_sublist l
  refine ⟨?_, ?_, ?_, ?_, ?_, ?_, ?_, happ, hpag, hpag.trans happ⟩
  · rw [stageIndustry_eq_filter]; exact List.filter_sublist l
  · rw [stageCategory_eq_filter]; exact List.filter_sublist l
  · rw [stageOfferType_eq_filter]; exact List.filter_sublist l
  · rw [stageRegion_eq_filter]; exact List.filter_sublist l
  · rw [stageNetwork_eq_filter]; exact List.filter_sublist l
  · rw [stageBrand_eq_filter]; exact List.filter_sublist l
  · rw [stageFeatured_eq_filter]; exact List.filter_sublist l

/-- C8 counterexample: the claim fails as stated once pagination fields are
part of the queries. With `Q1 = {offset: 1}`, `Q2 = {limitOffersCount: 1}`
and a two-offer candidate list, the pipeline under the union of the two
queries returns the second offer, while the intersection of the two separate
results (second offer vs first offer) is empty. -/
theorem C8_counterexample :
    fetchOffersPipeline (unionQuery queryOffset1 queryLimit1)
        [offerNoBrand, offerNoBrandB]
      ≠ listInter
          (fetchOffersPipeline queryOffset1 [offerNoBrand, offerNoBrandB])
          (fetchOffersPipeline queryLimit1 [offerNoBrand, offerNoBrandB]) := by
  decide

/-- C8 (amended): for all queries whose active filter fields are disjoint and
which request no pagination, applying the pipeline with the union of their
filters equals the order-preserving intersection of the pipeline applied with
each query alone. -/
theorem C8_and_composition (q1 q2 : GetOffersInput) (l : List Offer)
    (hd : DisjointFilters q1 q2) (hp1 : NoPagination q1) (hp2 : NoPagination q2) :
    fetchOffersPipeline (unionQuery q1 q2) l
      = listInter (fetchOffersPipeline q1 l) (fetchOffersPipeline q2 l) := by
  obtain ⟨ho1, hl1⟩ := hp1
  obtain ⟨ho2, hl2⟩ := hp2
  have hu_off : (unionQuery q1 q2).offset = none := by
    show (q1.offset <|> q2.offset) = none
    rw [ho1, ho2]; rfl
  have hu_lim : (unionQuery q1 q2).limitOffersCount = none := by
    show (q1.limitOffersCount <|> q2.limitOffersCount) = none
    rw [hl1, hl2]; rfl
  unfold fetchOffersPipeline listInter
  rw [paginate_noop _ _ hu_off hu_lim, paginate_noop _ _ ho1 hl1,
    paginate_noop _ _ ho2 hl2, applyFilters_eq_filter, applyFilters_eq_filter,
    applyFilters_eq_filter, List.filter_filter]
  refine (List.filter_congr fun o ho => ?_).symm
  show (decide (o ∈ l.filter (keepAll q2)) && keepAll q1 o) = keepAll (unionQuery q1 q2) o
  have hmem : decide (o ∈ l.filter (keepAll q2)) = keepAll q2 o := by
    cases hk : keepAll q2 o with
    | false =>
      have hno : o ∉ l.filter (keepAll q2) := fun hmem' => by
        have h2 := (List.mem_filter.mp hmem').2
        rw [hk] at h2
        exact Bool.false_ne_true h2
      simp [hno]
    | true =>
      have hyes : o ∈ l.filter (keepAll q2) := List.mem_filter.mpr ⟨ho, hk⟩
      simp [hyes]
  rw [hmem, keepAll_union q1 q2 hd o]
  exact Bool.and_comm _ _

/-- C8 witness: brand and featured filters set in different queries compose
by intersection over the mock dataset. -/
theorem C8_and_composition_witness :
    fetchOffersPipeline (unionQuery queryBrandBest queryFeaturedTrue) MOCK_OFFERS
      = listInter (fetchOffersPipeline queryBrandBest MOCK_OFFERS)
          (fetchOffersPipeline queryFeaturedTrue MOCK_OFFERS) :=
  C8_and_composition queryBrandBest queryFeaturedTrue MOCK_OFFERS
    ⟨Or.inl rfl, Or.inl rfl, Or.inl rfl, Or.inl rfl, Or.inl rfl, Or.inr rfl, Or.inl rfl⟩
    ⟨rfl, rfl⟩ ⟨rfl, rfl⟩

/-- C9: whenever the (legacy) fetched offer list is empty, `handleGetOffers`
returns a response that is not flagged as an error, whose text names the
category (always active, being required) and mentions the `maxPrice` bound
exactly when `maxPrice` is set, with the maxPrice-free message used when it
is unset. -/
theorem C9_empty_result_message (category : String) (maxPrice : Option Rat)
    (hpos : ∀ m, maxPrice = some m → 0 < m)
    (h : Legacy.fetchOffersFromSynchrony category maxPrice = []) :
    (Legacy.handleGetOffers category maxPrice).isError = false
    ∧ ∃ msg, Legacy.handleGetOffers category maxPrice = Legacy.ToolResult.message msg
        ∧ strIncludes msg category = true
        ∧ (maxPrice = none → msg = "No offers found in \"" ++ (category ++ "\"."))
        ∧ ∀ m, maxPrice = some m →
            strIncludes msg ("under $" ++ Legacy.toFixed2 m) = true := by
  cases maxPrice with
  | none =>
    have hh : Legacy.handleGetOffers category none
        = Legacy.ToolResult.message ("No offers found in \"" ++ (category ++ "\".")) := by
      unfold Legacy.handleGetOffers
      rw [h]
      rfl
    refine ⟨by rw [hh]; rfl, _, hh, strIncludes_append_mid _ _ _, fun _ => rfl,
      fun m hm => nomatch hm⟩
  | some m =>
    have hm0 : m ≠ 0 := (hpos m rfl).ne'
    have hh : Legacy.handleGetOffers category (some m)
        = Legacy.ToolResult.message
            ("No offers found in \"" ++
              (category ++ ("\" under $" ++ (Legacy.toFixed2 m ++ ".")))) := by
      unfold Legacy.handleGetOffers
      rw [h]
      simp [hm0]
    refine ⟨by rw [hh]; rfl, _, hh, ?_, ?_, ?_⟩
    · exact strIncludes_append_mid _ _ _
    · exact fun hx => nomatch hx
    intro m' hm'
    cases hm'
    have hsplit :
        "No offers found in \"" ++
            (category ++ ("\" under $" ++ (Legacy.toFixed2 m ++ ".")))
          = ("No offers found in \"" ++ (category ++ "\" ")) ++
              (("under $" ++ Legacy.toFixed2 m) ++ ".") := by
      apply String.ext
      have hd : ("\" under $" : String).data
          = ("\" " : String).data ++ ("under $" : String).data := rfl
      simp [hd, List.append_assoc]
    rw [hsplit]
    exact strIncludes_append_mid _ _ _

/-- C9 witness: the category `"jewelry"` with no `maxPrice` matches no legacy
mock offer and produces the non-error message naming the category. -/
theorem C9_empty_result_message_witness :
    (Legacy.handleGetOffers "jewelry" none).isError = false
    ∧ ∃ msg, Legacy.handleGetOffers "jewelry" none = Legacy.ToolResult.message msg
        ∧ strIncludes msg "jewelry" = true
        ∧ ((none : Option Rat) = none → msg = "No offers found in \"" ++ ("jewelry" ++ "\"."))
        ∧ ∀ m, (none : Option Rat) = some m →
            strIncludes msg ("under $" ++ Legacy.toFixed2 m) = true :=
  C9_empty_result_message "jewelry" none (fun m hm => nomatch hm) (by decide)

/-- C10: two `fetchOffers` inputs that agree on every field other than
`maxPrice` produce the identical offer list for every upstream outcome:
`maxPrice` is accepted by the input schema but never read by the rich filter
pipeline. -/
theorem C10_maxPrice_no_effect (q1 q2 : GetOffersInput) (u : UpstreamResult)
    (h : q1.category = q2.category ∧ q1.industry = q2.industry
      ∧ q1.offerType = q2.offerType ∧ q1.region = q2.region
      ∧ q1.network = q2.network ∧ q1.brand = q2.brand
      ∧ q1.featured = q2.featured ∧ q1.limitOffersCount = q2.limitOffersCount
      ∧ q1.offset = q2.offset) :
    fetchOffers u q1 = fetchOffers u q2 := by
  obtain ⟨h1, h2, h3, h4, h5, h6, h7, h8, h9⟩ := h
  cases q1
  cases q2
  simp only at h1 h2 h3 h4 h5 h6 h7 h8 h9
  subst h1 h2 h3 h4 h5 h6 h7 h8 h9
  rfl

/-- C10 witness: setting `maxPrice := 5` against the all-unset query leaves
the fallback-path result unchanged. -/
theorem C10_maxPrice_no_effect_witness :
    fetchOffers UpstreamResult.failure queryMaxPrice5
      = fetchOffers UpstreamResult.failure emptyQuery :=
  C10_maxPrice_no_effect queryMaxPrice5 emptyQuery UpstreamResult.failure
    ⟨rfl, rfl, rfl, rfl, rfl, rfl, rfl, rfl, rfl⟩
